import Mathlib

/-!
Shallow embedding of LuminaShot (src/src/main.rs), a reactive screenshot
utility for the Hyprland compositor.  External subprocess invocations
(`hyprctl`, `slurp`, `kill`) are modelled by explicit oracle inputs: a
`CmdResult` captures whether a command could be invoked, its exit status,
and whether its stdout parsed into the expected structure.  The async
race in `window_mode` is modelled by an oracle naming the winning branch,
with the side effects (spawning, aborting the watcher task, killing the
selector subprocess) recorded in an explicit effect trace.
-/

namespace LuminaShot

/-- Mirrors the Rust struct `HyprlandWorkspace` (fields `id: i32`, `name: String`). -/
structure HyprlandWorkspace where
  id : Int
  name : String
  deriving DecidableEq, Repr

/-- Mirrors the Rust struct `HyprlandClient` (fields `address`, `at`, `size`,
`workspace`, `hidden`). -/
structure HyprlandClient where
  address : String
  «at» : Int × Int
  size : Int × Int
  workspace : HyprlandWorkspace
  hidden : Bool
  deriving DecidableEq, Repr

/-- Mirrors the Rust struct `HyprlandMonitor` (fields `x`, `y`, `width`, `height`). -/
structure HyprlandMonitor where
  x : Int
  y : Int
  width : Int
  height : Int
  deriving DecidableEq, Repr

/-- Mirrors the Rust struct `HyprlandCursorPos` (fields `x`, `y`). -/
structure HyprlandCursorPos where
  x : Int
  y : Int
  deriving DecidableEq, Repr

/-- Outcome of one external command invocation, as observed by the Rust code:
`invokeFail` models `Command::output()` returning `Err` (the process could not
be started), and `ran exitSuccess parsed` models a completed process with exit
status `exitSuccess` and stdout that either parsed into the expected structure
(`some v`) or did not (`none`, a `serde_json` failure). -/
inductive CmdResult (α : Type) where
  | invokeFail : CmdResult α
  | ran (exitSuccess : Bool) (parsed : Option α) : CmdResult α
  deriving DecidableEq, Repr

/-- Error kinds raised by the embedded functions; each corresponds to one `?`
or `bail!` site in main.rs. -/
inductive AppError where
  | queryInvoke : AppError
  | queryParse : AppError
  | spawnFailed : AppError
  | stdinWriteFailed : AppError
  | pidUnavailable : AppError
  | slurpWaitFailed : AppError
  | utf8Failed : AppError
  | resolutionFailed (address : String) : AppError
  | noMonitorUnderCursor : AppError
  deriving DecidableEq, Repr

/-- Models Rust's `str::trim`: strip leading and trailing whitespace. -/
def strTrim (s : String) : String :=
  String.mk (((s.data.dropWhile Char.isWhitespace).reverse.dropWhile Char.isWhitespace).reverse)

/-- Digit characters of `n` in base 10, most significant first, empty for 0;
`fuel` only bounds the recursion depth (any `fuel ≥ n` gives the numeral). -/
def natDecimalAux : Nat → Nat → List Char
  | 0, _ => []
  | fuel + 1, n =>
    if n = 0 then []
    else natDecimalAux fuel (n / 10) ++ [Char.ofNat (48 + n % 10)]

/-- Decimal numeral of a natural number, most significant digit first, with no
leading zeros; models Rust's `Display` for the magnitude of an integer. -/
def natDecimal (n : Nat) : String :=
  if n = 0 then "0" else String.mk (natDecimalAux n n)

/-- Value denoted by a list of decimal digit characters read left to right. -/
def decimalVal (cs : List Char) : Nat :=
  cs.foldl (fun acc c => 10 * acc + (c.toNat - 48)) 0

/-- A non-empty all-digit character list with no leading zero (other than the
numeral `0` itself): the shape of a non-negative decimal numeral. -/
def isDecimalNumeralChars (cs : List Char) : Bool :=
  !cs.isEmpty && cs.all Char.isDigit && (cs == ['0'] || !(cs.head? == some '0'))

/-- String form of `isDecimalNumeralChars`. -/
def isDecimalNumeral (s : String) : Bool :=
  isDecimalNumeralChars s.data

/-- A decimal integer numeral: either a non-negative numeral or a minus sign
followed by a nonzero numeral. -/
def isDecimalInteger (s : String) : Bool :=
  if s.data.head? == some '-' then
    isDecimalNumeralChars (s.data.drop 1) && !(s.data.drop 1 == ['0'])
  else isDecimalNumeralChars s.data

/-- Rust `Display` for `i32`: a minus sign for negative values followed by the
decimal magnitude. -/
def intDisplay (n : Int) : String :=
  if n < 0 then "-" ++ natDecimal n.natAbs else natDecimal n.toNat

/-- The geometry string `format!("{},{} {}x{}", x, y, w, h)` used by both
`monitor_mode` and `get_geometry_for_address`. -/
def formatGeometry (x y w h : Int) : String :=
  intDisplay x ++ "," ++ intDisplay y ++ " " ++ intDisplay w ++ "x" ++ intDisplay h

/-- Embeds `get_active_workspace_id` (main.rs lines 227-235): `?` on the
command invocation, `?` on the JSON parse of stdout, then `Ok(workspace.id)`.
The exit status of the completed command is never examined. -/
def get_active_workspace_id (r : CmdResult HyprlandWorkspace) : Except AppError Int :=
  match r with
  | .invokeFail => .error .queryInvoke
  | .ran _ none => .error .queryParse
  | .ran _ (some workspace) => .ok workspace.id

/-- The filter step of `get_windows_on_workspace` (main.rs lines 246-249):
keep the clients that are not hidden and whose workspace id matches, in the
order reported by `hyprctl clients`. -/
def get_windows_on_workspace (workspace_id : Int) (all_clients : List HyprlandClient) :
    List HyprlandClient :=
  all_clients.filter (fun c => !c.hidden && c.workspace.id == workspace_id)

/-- The query-and-parse step shared by `get_windows_on_workspace` and
`get_geometry_for_address`: `?` on invocation, `?` on the JSON parse; the exit
status is not examined. -/
def parse_clients (r : CmdResult (List HyprlandClient)) : Except AppError (List HyprlandClient) :=
  match r with
  | .invokeFail => .error .queryInvoke
  | .ran _ none => .error .queryParse
  | .ran _ (some all_clients) => .ok all_clients

/-- Embeds the search loop of `get_geometry_for_address` (main.rs lines
275-281): the first client whose `address` equals the selected address yields
its current geometry; if none matches the function bails with an error. -/
def get_geometry_for_address (address : String) (all_clients : List HyprlandClient) :
    Except AppError String :=
  match all_clients.find? (fun client => client.address == address) with
  | some client =>
      .ok (formatGeometry client.«at».1 client.«at».2 client.size.1 client.size.2)
  | none => .error (.resolutionFailed address)

/-- Embeds `get_geometry_for_address` including its fresh `hyprctl clients`
query at resolution time. -/
def get_geometry_for_address_cmd (address : String) (r : CmdResult (List HyprlandClient)) :
    Except AppError String :=
  match parse_clients r with
  | .error e => .error e
  | .ok all_clients => get_geometry_for_address address all_clients

/-- Embeds the monitor-search loop of `monitor_mode` (main.rs lines 157-164):
return the geometry of the first monitor containing the cursor, else bail. -/
def monitor_mode (cursor_pos : HyprlandCursorPos) (monitors : List HyprlandMonitor) :
    Except AppError (Option String) :=
  match monitors.find? (fun monitor =>
      decide (monitor.x ≤ cursor_pos.x) && decide (cursor_pos.x < monitor.x + monitor.width) &&
      decide (monitor.y ≤ cursor_pos.y) && decide (cursor_pos.y < monitor.y + monitor.height)) with
  | some monitor => .ok (some (formatGeometry monitor.x monitor.y monitor.width monitor.height))
  | none => .error .noMonitorUnderCursor

/-- Half-open containment test used by `monitor_mode`, written as a
proposition: the cursor lies in `[x, x + width) × [y, y + height)`. -/
def containsCursor (monitor : HyprlandMonitor) (cursor_pos : HyprlandCursorPos) : Prop :=
  monitor.x ≤ cursor_pos.x ∧ cursor_pos.x < monitor.x + monitor.width ∧
  monitor.y ≤ cursor_pos.y ∧ cursor_pos.y < monitor.y + monitor.height

instance (monitor : HyprlandMonitor) (cursor_pos : HyprlandCursorPos) :
    Decidable (containsCursor monitor cursor_pos) := by
  unfold containsCursor
  infer_instance

/-- The fixed interval, in milliseconds, slept at the top of every iteration
of `monitor_workspace_changes_by_polling` (main.rs line 257). -/
def monitorPollSleepMs : Nat := 200

/-- Embeds `monitor_workspace_changes_by_polling` (main.rs lines 255-264) over
a finite observed trace of `hyprctl activeworkspace` outcomes, one per loop
iteration.  `none` means the loop was still polling when the trace ran out
(the Rust loop is unbounded and is only ever stopped by its supervisor);
`some r` means the function returned with result `r`.  Each iteration sleeps,
queries, swallows a failed query (`if let Ok(..)`), and returns `Ok(())` as
soon as a successful query reports an id different from `initial_id`. -/
def monitor_workspace_changes_by_polling (initial_id : Int) :
    List (CmdResult HyprlandWorkspace) → Option (Except AppError Unit)
  | [] => none
  | q :: rest =>
    match get_active_workspace_id q with
    | .ok current_id =>
        if current_id ≠ initial_id then some (.ok ())
        else monitor_workspace_changes_by_polling initial_id rest
    | .error _ => monitor_workspace_changes_by_polling initial_id rest

/-- Observable side effects of one `window_mode` iteration, in the order the
Rust code performs them. -/
inductive Effect where
  | spawnSelector : Effect
  | spawnWatcherTask : Effect
  | abortWatcher : Effect
  | killSelector (pid : Nat) : Effect
  deriving DecidableEq, Repr

/-- Which branch of the `tokio::select!` in `window_mode` becomes ready
first.  `select!` commits to a single winner, so one oracle bit suffices. -/
inductive RaceWinner where
  | selector : RaceWinner
  | watcher : RaceWinner
  deriving DecidableEq, Repr

/-- Oracle inputs consumed by the race portion of one `window_mode`
iteration: the winner of the `select!`, the selector subprocess's observed
completion (`wait_with_output` success, exit status, stdout and its UTF-8
validity), the join status of the watcher task, and the outcome of the fresh
`hyprctl clients` query made by `get_geometry_for_address`. -/
structure SelectorRaceEnv where
  winner : RaceWinner
  slurpWaitOk : Bool
  slurpExitSuccess : Bool
  slurpUtf8Ok : Bool
  slurpStdout : String
  watcherTaskOk : Bool
  resolutionClients : CmdResult (List HyprlandClient)
  deriving DecidableEq, Repr

/-- Result of the race inside `window_mode` (main.rs lines 202-220):
`selected g` is `return Ok(Some(g))`, `cancelled` is `return Ok(None)`,
`restart` falls through to the next loop iteration, and `failed e` is an
error propagated by `?`. -/
inductive RaceOutcome where
  | selected (geometry : String) : RaceOutcome
  | cancelled : RaceOutcome
  | restart : RaceOutcome
  | failed (e : AppError) : RaceOutcome
  deriving DecidableEq, Repr

/-- True exactly when the race produced one of the three normal outcomes
`selected`, `cancelled`, `restart` (as opposed to a propagated error). -/
def RaceOutcome.isNormal : RaceOutcome → Bool
  | .selected _ => true
  | .cancelled => true
  | .restart => true
  | .failed _ => false

/-- Embeds the `tokio::select!` block of `window_mode` (main.rs lines
202-220).  Selector branch: `monitor_handle.abort()` first, then `?` on
`wait_with_output`; on success exit decode stdout (`?` on UTF-8), trim it,
and resolve the live geometry; on non-success exit return `Ok(None)`.
Watcher branch: run `kill <pid>` (its status discarded) and fall through to
restart, whether or not the watcher task joined cleanly. -/
def selectorRace (slurp_pid : Nat) (env : SelectorRaceEnv) : List Effect × RaceOutcome :=
  match env.winner with
  | .selector =>
    ([Effect.abortWatcher],
      if !env.slurpWaitOk then .failed .slurpWaitFailed
      else if env.slurpExitSuccess then
        if !env.slurpUtf8Ok then .failed .utf8Failed
        else
          match get_geometry_for_address_cmd (strTrim env.slurpStdout) env.resolutionClients with
          | .ok final_geom => .selected final_geom
          | .error e => .failed e
      else .cancelled)
  | .watcher => ([Effect.killSelector slurp_pid], .restart)

/-- Oracle inputs for one full iteration of the `window_mode` loop: the two
snapshot queries, the trace observed by the empty-branch watcher call, the
spawn/stdin/pid steps of the selector subprocess, its pid, and the race
oracle. -/
structure IterEnv where
  activeWsCmd : CmdResult HyprlandWorkspace
  clientsCmd : CmdResult (List HyprlandClient)
  emptyTrace : List (CmdResult HyprlandWorkspace)
  spawnOk : Bool
  stdinWriteOk : Bool
  pidOk : Bool
  slurp_pid : Nat
  race : SelectorRaceEnv
  deriving DecidableEq, Repr

/-- How one iteration of the `window_mode` loop ends: `finished g` is a
`return Ok(g)` out of the loop, `continueLoop` re-enters the loop (a
`continue` or falling out of the `select!`), `blockedPolling` means the
empty-branch watcher was still polling when its observed trace ran out, and
`failed e` is an error propagated by `?`. -/
inductive IterStep where
  | finished (geometry : Option String) : IterStep
  | continueLoop : IterStep
  | blockedPolling : IterStep
  | failed (e : AppError) : IterStep
  deriving DecidableEq, Repr

/-- Embeds one iteration of the `window_mode` loop (main.rs lines 169-221):
snapshot the active workspace id and the filtered window list; if the list is
empty, block on the polling watcher and then `continue`; otherwise spawn the
selector subprocess, feed it the serialized windows, read its pid, spawn the
watcher task, and run the race.  The returned effect list records, in order,
which concurrent operations were started and cancelled. -/
def windowModeIter (env : IterEnv) : List Effect × IterStep :=
  match get_active_workspace_id env.activeWsCmd with
  | .error e => ([], .failed e)
  | .ok initial_workspace_id =>
    match parse_clients env.clientsCmd with
    | .error e => ([], .failed e)
    | .ok all_clients =>
      if (get_windows_on_workspace initial_workspace_id all_clients).isEmpty then
        match monitor_workspace_changes_by_polling initial_workspace_id env.emptyTrace with
        | none => ([], .blockedPolling)
        | some (.ok _) => ([], .continueLoop)
        | some (.error e) => ([], .failed e)
      else
        if !env.spawnOk then ([], .failed .spawnFailed)
        else if !env.stdinWriteOk then ([Effect.spawnSelector], .failed .stdinWriteFailed)
        else if !env.pidOk then ([Effect.spawnSelector], .failed .pidUnavailable)
        else
          let raceRun := selectorRace env.slurp_pid env.race
          (Effect.spawnSelector :: Effect.spawnWatcherTask :: raceRun.1,
            match raceRun.2 with
            | .selected final_geom => .finished (some final_geom)
            | .cancelled => .finished none
            | .restart => .continueLoop
            | .failed e => .failed e)

/-! Helper lemmas about decimal numerals. -/

theorem natDecimalAux_zero (fuel : Nat) : natDecimalAux fuel 0 = [] := by
  cases fuel <;> simp [natDecimalAux]

theorem digitChar_toNat {d : Nat} (hd : d < 10) : (Char.ofNat (48 + d)).toNat = 48 + d := by
  interval_cases d <;> decide

theorem digitChar_isDigit {d : Nat} (hd : d < 10) : (Char.ofNat (48 + d)).isDigit = true := by
  interval_cases d <;> decide

theorem digitChar_ne_zero {d : Nat} (h1 : 1 ≤ d) (hd : d < 10) : Char.ofNat (48 + d) ≠ '0' := by
  interval_cases d <;> decide

theorem natDecimalAux_spec : ∀ fuel n : Nat, n ≤ fuel →
    decimalVal (natDecimalAux fuel n) = n ∧
    (∀ c ∈ natDecimalAux fuel n, c.isDigit = true) ∧
    (1 ≤ n → natDecimalAux fuel n ≠ [] ∧ (natDecimalAux fuel n).head? ≠ some '0') := by
  intro fuel
  induction fuel with
  | zero =>
    intro n hn
    interval_cases n
    simp [natDecimalAux, decimalVal]
  | succ fuel ih =>
    intro n hn
    by_cases h0 : n = 0
    · subst h0
      simp [natDecimalAux, decimalVal]
    · have hpos : 1 ≤ n := Nat.one_le_iff_ne_zero.mpr h0
      have hdivle : n / 10 ≤ fuel := by omega
      obtain ⟨ihval, ihdig, ihhead⟩ := ih (n / 10) hdivle
      have hmod : n % 10 < 10 := by omega
      have hrw : natDecimalAux (fuel + 1) n
          = natDecimalAux fuel (n / 10) ++ [Char.ofNat (48 + n % 10)] := by
        simp [natDecimalAux, h0]
      refine ⟨?_, ?_, ?_⟩
      · rw [hrw]
        unfold decimalVal at ihval ⊢
        rw [List.foldl_append, List.foldl_cons, List.foldl_nil, ihval, digitChar_toNat hmod]
        omega
      · rw [hrw]
        intro c hc
        rcases List.mem_append.mp hc with h | h
        · exact ihdig c h
        · rw [List.mem_singleton.mp h]
          exact digitChar_isDigit hmod
      · intro _
        rw [hrw]
        by_cases hlt : n < 10
        · have hq : n / 10 = 0 := by omega
          have hm : 1 ≤ n % 10 := by omega
          rw [hq, natDecimalAux_zero, List.nil_append]
          exact ⟨by simp, by simpa using digitChar_ne_zero hm hmod⟩
        · have hd10 : 1 ≤ n / 10 := by omega
          obtain ⟨hne, hhd⟩ := ihhead hd10
          cases hxs : natDecimalAux fuel (n / 10) with
          | nil => exact absurd hxs hne
          | cons a t =>
            rw [hxs] at hhd
            refine ⟨by simp, ?_⟩
            simpa using hhd

theorem natDecimal_data (n : Nat) (hn : 1 ≤ n) : (natDecimal n).data = natDecimalAux n n := by
  unfold natDecimal
  rw [if_neg (by omega)]

theorem natDecimal_val (n : Nat) : decimalVal (natDecimal n).data = n := by
  by_cases h0 : n = 0
  · subst h0
    decide
  · rw [natDecimal_data n (by omega)]
    exact (natDecimalAux_spec n n le_rfl).1

theorem natDecimal_head_ne_zero {n : Nat} (hn : 1 ≤ n) :
    (natDecimal n).data.head? ≠ some '0' := by
  rw [natDecimal_data n hn]
  exact ((natDecimalAux_spec n n le_rfl).2.2 hn).2

theorem natDecimal_isNumeral (n : Nat) : isDecimalNumeral (natDecimal n) = true := by
  by_cases h0 : n = 0
  · subst h0
    decide
  · have hn : 1 ≤ n := by omega
    obtain ⟨_, hdig, hne⟩ := natDecimalAux_spec n n le_rfl
    obtain ⟨hnil, hhd⟩ := hne hn
    unfold isDecimalNumeral isDecimalNumeralChars
    rw [natDecimal_data n hn]
    have h1 : (natDecimalAux n n).isEmpty = false := by
      simpa [List.isEmpty_iff] using hnil
    have h2 : (natDecimalAux n n).all Char.isDigit = true := List.all_eq_true.mpr hdig
    have h3 : ((natDecimalAux n n).head? == some '0') = false := by
      simpa using hhd
    rw [h1, h2, h3]
    simp

theorem natDecimal_not_dash (n : Nat) : (natDecimal n).data.head? ≠ some '-' := by
  by_cases h0 : n = 0
  · subst h0
    decide
  · have hn : 1 ≤ n := by omega
    obtain ⟨_, hdig, hne⟩ := natDecimalAux_spec n n le_rfl
    obtain ⟨hnil, _⟩ := hne hn
    rw [natDecimal_data n hn]
    cases hxs : natDecimalAux n n with
    | nil => exact absurd hxs hnil
    | cons a t =>
      have ha : a.isDigit = true := hdig a (by rw [hxs]; exact List.mem_cons_self a t)
      intro hcontra
      simp only [List.head?_cons, Option.some.injEq] at hcontra
      rw [hcontra] at ha
      exact absurd ha (by decide)

theorem intDisplay_nonneg {n : Int} (h : 0 ≤ n) : intDisplay n = natDecimal n.toNat := by
  unfold intDisplay
  rw [if_neg (by omega)]

/-! Helper lemmas about `List.find?`, the polling loop and the iteration model. -/

theorem find_from_index {α : Type} (p : α → Bool) (l : List α) :
    ∀ (i : Nat) (hi : i < l.length),
      p (l.get ⟨i, hi⟩) = true →
      (∀ j (hj : j < l.length), j < i → p (l.get ⟨j, hj⟩) = false) →
      l.find? p = some (l.get ⟨i, hi⟩) := by
  induction l with
  | nil =>
    intro i hi
    simp at hi
  | cons a tl ih =>
    intro i hi hp hmin
    cases i with
    | zero =>
      exact List.find?_cons_of_pos tl hp
    | succ j =>
      have hpa : p a = false := hmin 0 (by simp) (by omega)
      rw [List.find?_cons_of_neg tl (by simp [hpa])]
      exact ih j (by simpa using hi) hp
        (fun k hk hkj => hmin (k + 1) (by simpa using hk) (by omega))

theorem mwcbp_some_ok (initial_id : Int) :
    ∀ (trace : List (CmdResult HyprlandWorkspace)) (r : Except AppError Unit),
      monitor_workspace_changes_by_polling initial_id trace = some r → r = .ok () := by
  intro trace
  induction trace with
  | nil =>
    intro r h
    simp [monitor_workspace_changes_by_polling] at h
  | cons q rest ih =>
    intro r h
    rw [monitor_workspace_changes_by_polling] at h
    cases hq : get_active_workspace_id q with
    | ok c =>
      rw [hq] at h
      dsimp only at h
      by_cases hc : c ≠ initial_id
      · rw [if_pos hc] at h
        exact (Option.some_inj.mp h).symm
      · rw [if_neg hc] at h
        exact ih r h
    | error e =>
      rw [hq] at h
      dsimp only at h
      exact ih r h

theorem mwcbp_some_iff (initial_id : Int) :
    ∀ trace, monitor_workspace_changes_by_polling initial_id trace = some (.ok ()) ↔
      ∃ q ∈ trace, ∃ current_id,
        get_active_workspace_id q = .ok current_id ∧ current_id ≠ initial_id := by
  intro trace
  induction trace with
  | nil => simp [monitor_workspace_changes_by_polling]
  | cons q rest ih =>
    rw [monitor_workspace_changes_by_polling]
    cases hq : get_active_workspace_id q with
    | ok c =>
      dsimp only
      by_cases hc : c ≠ initial_id
      · rw [if_pos hc]
        constructor
        · intro _
          exact ⟨q, List.mem_cons_self q rest, c, hq, hc⟩
        · intro _
          rfl
      · push_neg at hc
        rw [if_neg (by simp [hc]), ih]
        constructor
        · rintro ⟨q', hq', cid, hcid, hne⟩
          exact ⟨q', List.mem_cons_of_mem q hq', cid, hcid, hne⟩
        · rintro ⟨q', hq', cid, hcid, hne⟩
          rcases List.mem_cons.mp hq' with rfl | hmem
          · rw [hq] at hcid
            exact absurd (hc ▸ (Except.ok.inj hcid)) (Ne.symm hne)
          · exact ⟨q', hmem, cid, hcid, hne⟩
    | error e =>
      dsimp only
      rw [ih]
      constructor
      · rintro ⟨q', hq', cid, hcid, hne⟩
        exact ⟨q', List.mem_cons_of_mem q hq', cid, hcid, hne⟩
      · rintro ⟨q', hq', cid, hcid, hne⟩
        rcases List.mem_cons.mp hq' with rfl | hmem
        · rw [hq] at hcid
          exact absurd hcid (by simp)
        · exact ⟨q', hmem, cid, hcid, hne⟩

theorem windowModeIter_empty (env : IterEnv) (wid : Int) (cls : List HyprlandClient)
    (ha : get_active_workspace_id env.activeWsCmd = .ok wid)
    (hc : parse_clients env.clientsCmd = .ok cls)
    (he : get_windows_on_workspace wid cls = []) :
    windowModeIter env =
      ([], match monitor_workspace_changes_by_polling wid env.emptyTrace with
           | none => .blockedPolling
           | some (.ok _) => .continueLoop
           | some (.error e) => .failed e) := by
  unfold windowModeIter
  rw [ha, hc]
  dsimp only
  rw [he]
  simp only [List.isEmpty_nil, if_pos]
  cases monitor_workspace_changes_by_polling wid env.emptyTrace with
  | none => rfl
  | some r => cases r <;> rfl

theorem windowModeIter_race (env : IterEnv) (wid : Int) (cls : List HyprlandClient)
    (ha : get_active_workspace_id env.activeWsCmd = .ok wid)
    (hc : parse_clients env.clientsCmd = .ok cls)
    (hne : get_windows_on_workspace wid cls ≠ [])
    (hs : env.spawnOk = true) (hw : env.stdinWriteOk = true) (hp : env.pidOk = true) :
    windowModeIter env =
      (Effect.spawnSelector :: Effect.spawnWatcherTask :: (selectorRace env.slurp_pid env.race).1,
        match (selectorRace env.slurp_pid env.race).2 with
        | .selected final_geom => .finished (some final_geom)
        | .cancelled => .finished none
        | .restart => .continueLoop
        | .failed e => .failed e) := by
  unfold windowModeIter
  rw [ha, hc]
  dsimp only
  rw [if_neg (by simpa [List.isEmpty_iff] using hne)]
  rw [hs, hw, hp]
  simp

theorem intDisplay_isInteger (n : Int) : isDecimalInteger (intDisplay n) = true := by
  by_cases hneg : n < 0
  · have habs : 1 ≤ n.natAbs := by omega
    unfold intDisplay isDecimalInteger
    rw [if_pos hneg]
    have hdata : ("-" ++ natDecimal n.natAbs).data = '-' :: (natDecimal n.natAbs).data := by
      rw [String.data_append]
      rfl
    rw [hdata]
    simp only [List.head?_cons, List.drop_one, List.tail_cons, beq_self_eq_true, if_pos]
    have h1 : isDecimalNumeralChars (natDecimal n.natAbs).data = true := natDecimal_isNumeral _
    have h2 : ((natDecimal n.natAbs).data == ['0']) = false := by
      have := natDecimal_head_ne_zero habs
      rcases hd : (natDecimal n.natAbs).data with _ | ⟨a, t⟩
      · rfl
      · rw [hd] at this
        simp only [List.head?_cons, ne_eq, Option.some.injEq] at this
        simp [this]
    rw [h1, h2]
    rfl
  · unfold isDecimalInteger
    rw [intDisplay_nonneg (by omega)]
    rw [if_neg (by simpa using natDecimal_not_dash n.toNat)]
    exact natDecimal_isNumeral n.toNat

theorem selectorRace_selector (slurp_pid : Nat) (env : SelectorRaceEnv)
    (h : env.winner = .selector) :
    selectorRace slurp_pid env =
      ([Effect.abortWatcher],
        if !env.slurpWaitOk then .failed .slurpWaitFailed
        else if env.slurpExitSuccess then
          if !env.slurpUtf8Ok then .failed .utf8Failed
          else
            match get_geometry_for_address_cmd (strTrim env.slurpStdout) env.resolutionClients with
            | .ok final_geom => .selected final_geom
            | .error e => .failed e
        else .cancelled) := by
  unfold selectorRace
  rw [h]

/-! The claims. -/

/-- C1: for every baseline workspace id, `monitor_workspace_changes_by_polling`
sleeps a fixed 200 ms interval per iteration before querying the active
workspace; a failed per-iteration query is swallowed and the iteration behaves
as "no change yet"; the loop completes, always successfully, exactly when some
successful query in the observed trace returns an id different from the
baseline. -/
theorem claim_C1_watcher_poll_swallow_and_completion
    (initial_id : Int) (trace : List (CmdResult HyprlandWorkspace)) :
    monitorPollSleepMs = 200 ∧
    (∀ (q : CmdResult HyprlandWorkspace) (e : AppError)
        (rest : List (CmdResult HyprlandWorkspace)),
      get_active_workspace_id q = .error e →
      monitor_workspace_changes_by_polling initial_id (q :: rest)
        = monitor_workspace_changes_by_polling initial_id rest) ∧
    (∀ r, monitor_workspace_changes_by_polling initial_id trace = some r → r = .ok ()) ∧
    (monitor_workspace_changes_by_polling initial_id trace = some (.ok ()) ↔
      ∃ q ∈ trace, ∃ current_id,
        get_active_workspace_id q = .ok current_id ∧ current_id ≠ initial_id) := by
  refine ⟨rfl, ?_, fun r => mwcbp_some_ok initial_id trace r, mwcbp_some_iff initial_id trace⟩
  intro q e rest hq
  rw [monitor_workspace_changes_by_polling, hq]

theorem claim_C1_witness :
    monitor_workspace_changes_by_polling 3
        [CmdResult.invokeFail, CmdResult.ran true (some ⟨4, "4"⟩)] = some (.ok ()) := by
  exact (claim_C1_watcher_poll_swallow_and_completion 3
      [CmdResult.invokeFail, CmdResult.ran true (some ⟨4, "4"⟩)]).2.2.2.mpr
    ⟨CmdResult.ran true (some ⟨4, "4"⟩), by decide, 4, rfl, by decide⟩

/-- C2: `get_windows_on_workspace` returns exactly the clients that are not
hidden and whose workspace id matches, preserving the relative order of the
underlying client list (it is a sublist), with multiplicities preserved and
all other entries excluded. -/
theorem claim_C2_window_filtering (workspace_id : Int) (all_clients : List HyprlandClient) :
    (get_windows_on_workspace workspace_id all_clients).Sublist all_clients ∧
    (∀ c : HyprlandClient,
      c ∈ get_windows_on_workspace workspace_id all_clients ↔
        c ∈ all_clients ∧ c.hidden = false ∧ c.workspace.id = workspace_id) ∧
    (∀ c : HyprlandClient,
      (get_windows_on_workspace workspace_id all_clients).count c =
        if c.hidden = false ∧ c.workspace.id = workspace_id then all_clients.count c
        else 0) := by
  have hbool : ∀ c : HyprlandClient,
      ((!c.hidden && c.workspace.id == workspace_id) = true) ↔
        (c.hidden = false ∧ c.workspace.id = workspace_id) := by
    intro c
    simp [Bool.and_eq_true, Bool.not_eq_true']
  refine ⟨List.filter_sublist _, ?_, ?_⟩
  · intro c
    unfold get_windows_on_workspace
    rw [List.mem_filter, hbool c]
  · intro c
    by_cases hcond : c.hidden = false ∧ c.workspace.id = workspace_id
    · rw [if_pos hcond]
      exact List.count_filter ((hbool c).mpr hcond)
    · rw [if_neg hcond]
      refine List.count_eq_zero.mpr ?_
      intro hmem
      exact hcond ((hbool c).mp (List.mem_filter.mp hmem).2)

/-- C3: `get_geometry_for_address`, run over the client list freshly queried
at resolution time, returns the first matching client's resolution-time
position and size formatted as a geometry string; when no client carries the
selected address it fails with a resolution error, and on the
selector-success path of the race that error is surfaced as a failure of the
attempt. -/
theorem claim_C3_geometry_resolution (address : String) (all_clients : List HyprlandClient) :
    ((∀ c ∈ all_clients, c.address ≠ address) →
      get_geometry_for_address address all_clients = .error (.resolutionFailed address)) ∧
    (∀ (i : Nat) (hi : i < all_clients.length),
      (all_clients.get ⟨i, hi⟩).address = address →
      (∀ (j : Nat) (hj : j < all_clients.length), j < i →
        (all_clients.get ⟨j, hj⟩).address ≠ address) →
      get_geometry_for_address address all_clients =
        .ok (formatGeometry (all_clients.get ⟨i, hi⟩).«at».1 (all_clients.get ⟨i, hi⟩).«at».2
          (all_clients.get ⟨i, hi⟩).size.1 (all_clients.get ⟨i, hi⟩).size.2)) ∧
    (∀ (slurp_pid : Nat) (env : SelectorRaceEnv) (exit_ok : Bool),
      env.winner = .selector → env.slurpWaitOk = true → env.slurpExitSuccess = true →
      env.slurpUtf8Ok = true → env.resolutionClients = .ran exit_ok (some all_clients) →
      strTrim env.slurpStdout = address →
      (∀ c ∈ all_clients, c.address ≠ address) →
      (selectorRace slurp_pid env).2 = .failed (.resolutionFailed address)) := by
  have hnone : (∀ c ∈ all_clients, c.address ≠ address) →
      get_geometry_for_address address all_clients = .error (.resolutionFailed address) := by
    intro hno
    unfold get_geometry_for_address
    rw [List.find?_eq_none.mpr (fun c hc => by simpa using hno c hc)]
  refine ⟨hnone, ?_, ?_⟩
  · intro i hi hip hmin
    unfold get_geometry_for_address
    rw [find_from_index (fun client => client.address == address) all_clients i hi
      (by simpa using hip) (fun j hj hji => by simpa using hmin j hj hji)]
  · intro slurp_pid env exit_ok hwin hwait hexit hutf8 hres htrim hno
    rw [selectorRace_selector slurp_pid env hwin]
    dsimp only
    rw [hwait, hexit, hutf8, htrim, hres]
    unfold get_geometry_for_address_cmd parse_clients
    dsimp only
    rw [hnone hno]
    rfl

theorem claim_C3_witness :
    get_geometry_for_address "b" [⟨"b", (7, 8), (100, 200), ⟨1, "1"⟩, false⟩]
      = .ok "7,8 100x200" := by
  have h := (claim_C3_geometry_resolution "b"
      [⟨"b", (7, 8), (100, 200), ⟨1, "1"⟩, false⟩]).2.1 0 (by decide) (by decide)
    (fun j hj hj0 => by omega)
  rw [h]
  rfl

/-- C4 counterexample: a race invocation in which the selector wins with a
successful exit but the selected window is gone at resolution time produces a
propagated failure, which is none of `selected`, `cancelled`, `restart` —
so it is not the case that exactly one of those three is always produced. -/
theorem claim_C4_counterexample :
    (selectorRace 7 ⟨.selector, true, true, true, "0xdead", true, .ran true (some [])⟩).2
      = .failed (.resolutionFailed "0xdead") ∧
    (selectorRace 7 ⟨.selector, true, true, true, "0xdead", true, .ran true (some [])⟩).2.isNormal
      = false := by
  exact ⟨rfl, rfl⟩

/-- C4 amended: every race invocation produces exactly one outcome, which is
one of `selected`, `cancelled`, `restart` or a propagated failure; the losing
concurrent operation is always cancelled or signalled before the controller
returns — the watcher task is aborted whenever the selector branch wins
(including its failure paths), and the selector subprocess is sent a kill
signal whenever the watcher branch wins. -/
theorem claim_C4_amended (slurp_pid : Nat) (env : SelectorRaceEnv) :
    ((∃ final_geom, (selectorRace slurp_pid env).2 = .selected final_geom) ∨
      (selectorRace slurp_pid env).2 = .cancelled ∨
      (selectorRace slurp_pid env).2 = .restart ∨
      (∃ e, (selectorRace slurp_pid env).2 = .failed e)) ∧
    (env.winner = .selector → (selectorRace slurp_pid env).1 = [Effect.abortWatcher]) ∧
    (env.winner = .watcher →
      (selectorRace slurp_pid env).1 = [Effect.killSelector slurp_pid] ∧
      (selectorRace slurp_pid env).2 = .restart) := by
  refine ⟨?_, ?_, ?_⟩
  · cases h : (selectorRace slurp_pid env).2 with
    | selected g => exact Or.inl ⟨g, rfl⟩
    | cancelled => exact Or.inr (Or.inl rfl)
    | restart => exact Or.inr (Or.inr (Or.inl rfl))
    | failed e => exact Or.inr (Or.inr (Or.inr ⟨e, rfl⟩))
  · intro hwin
    rw [selectorRace_selector slurp_pid env hwin]
  · intro hwin
    unfold selectorRace
    rw [hwin]
    exact ⟨rfl, rfl⟩

theorem claim_C4_amended_witness :
    (selectorRace 9 ⟨.watcher, true, true, true, "", true, .invokeFail⟩).1
      = [Effect.killSelector 9] ∧
    (selectorRace 9 ⟨.watcher, true, true, true, "", true, .invokeFail⟩).2 = .restart := by
  exact (claim_C4_amended 9 ⟨.watcher, true, true, true, "", true, .invokeFail⟩).2.2 rfl

/-- C5: in an iteration of the `window_mode` loop whose snapshot succeeds and
whose filtered window list is empty, no selector subprocess is spawned (the
effect trace is empty); the iteration blocks on the polling watcher — still
polling if the observed trace never shows a change — and once the watcher
returns it unconditionally re-enters the loop for a fresh snapshot. -/
theorem claim_C5_empty_workspace_blocks (env : IterEnv) (wid : Int)
    (cls : List HyprlandClient)
    (ha : get_active_workspace_id env.activeWsCmd = .ok wid)
    (hc : parse_clients env.clientsCmd = .ok cls)
    (he : get_windows_on_workspace wid cls = []) :
    (windowModeIter env).1 = [] ∧
    Effect.spawnSelector ∉ (windowModeIter env).1 ∧
    (monitor_workspace_changes_by_polling wid env.emptyTrace = none →
      (windowModeIter env).2 = .blockedPolling) ∧
    (∀ r, monitor_workspace_changes_by_polling wid env.emptyTrace = some r →
      (windowModeIter env).2 = .continueLoop) := by
  rw [windowModeIter_empty env wid cls ha hc he]
  refine ⟨rfl, by simp, ?_, ?_⟩
  · intro h
    rw [h]
  · intro r h
    have hr := mwcbp_some_ok wid env.emptyTrace r h
    subst hr
    rw [h]

theorem claim_C5_witness :
    (windowModeIter ⟨CmdResult.ran true (some ⟨3, "3"⟩), CmdResult.ran true (some []),
        [CmdResult.ran true (some ⟨4, "4"⟩)], true, true, true, 7,
        ⟨.selector, true, true, true, "", true, .invokeFail⟩⟩).1 = [] ∧
    (windowModeIter ⟨CmdResult.ran true (some ⟨3, "3"⟩), CmdResult.ran true (some []),
        [CmdResult.ran true (some ⟨4, "4"⟩)], true, true, true, 7,
        ⟨.selector, true, true, true, "", true, .invokeFail⟩⟩).2 = .continueLoop := by
  have h := claim_C5_empty_workspace_blocks
    ⟨CmdResult.ran true (some ⟨3, "3"⟩), CmdResult.ran true (some []),
      [CmdResult.ran true (some ⟨4, "4"⟩)], true, true, true, 7,
      ⟨.selector, true, true, true, "", true, .invokeFail⟩⟩ 3 [] rfl rfl rfl
  exact ⟨h.1, h.2.2.2 (.ok ()) rfl⟩

/-- C6 counterexample: a compositor query that exits with a non-success
status but still prints parseable content makes `get_active_workspace_id`
succeed — a non-zero exit status is not by itself sufficient for the call to
fail, because the code never inspects the exit status. -/
theorem claim_C6_counterexample :
    get_active_workspace_id (.ran false (some ⟨5, "5"⟩)) = .ok 5 := rfl

/-- C6 amended: `get_active_workspace_id` fails exactly when the external
query cannot be invoked or its stdout does not parse into the expected
structure; the exit status of a completed query is never examined, so a
non-zero exit status alone does not make the call fail. -/
theorem claim_C6_amended (exitSuccess : Bool) (workspace : HyprlandWorkspace) :
    get_active_workspace_id .invokeFail = .error .queryInvoke ∧
    get_active_workspace_id (.ran exitSuccess none) = .error .queryParse ∧
    get_active_workspace_id (.ran exitSuccess (some workspace)) = .ok workspace.id :=
  ⟨rfl, rfl, rfl⟩

/-- C7 counterexample: `get_geometry_for_address` passes through whatever
size the client list reports, so a client carrying a negative width produces
the geometry string "1,2 -5x10", whose width component (the text between the
space and the `x`) is "-5" — not a non-negative decimal numeral.  The claim
that every produced geometry string has non-negative width and height
components is therefore false. -/
theorem claim_C7_counterexample :
    get_geometry_for_address "a" [⟨"a", (1, 2), (-5, 10), ⟨1, "1"⟩, false⟩]
      = .ok "1,2 -5x10" ∧
    ((("1,2 -5x10").data.dropWhile (fun c => !(c == ' '))).drop 1).takeWhile
        (fun c => !(c == 'x')) = ['-', '5'] ∧
    isDecimalNumeralChars ['-', '5'] = false := by
  exact ⟨rfl, by decide, by decide⟩

/-- C7 amended: every geometry string is joined exactly as
`"{x},{y} {w}x{h}"` from decimal integer numerals with no leading zeros; the
width and height components are non-negative decimal numerals whenever the
sizes handed to the formatter are non-negative (`get_geometry_for_address`
merely passes through the sizes the compositor reports), and every geometry
produced by `monitor_mode` comes from a monitor with strictly positive width
and height, since cursor containment forces both. -/
theorem claim_C7_amended (x y w h : Int) (hw : 0 ≤ w) (hh : 0 ≤ h)
    (cursor_pos : HyprlandCursorPos) (monitors : List HyprlandMonitor) :
    formatGeometry x y w h
      = intDisplay x ++ "," ++ intDisplay y ++ " "
          ++ natDecimal w.toNat ++ "x" ++ natDecimal h.toNat ∧
    isDecimalNumeral (natDecimal w.toNat) = true ∧
    isDecimalNumeral (natDecimal h.toNat) = true ∧
    decimalVal (natDecimal w.toNat).data = w.toNat ∧
    decimalVal (natDecimal h.toNat).data = h.toNat ∧
    isDecimalInteger (intDisplay x) = true ∧
    isDecimalInteger (intDisplay y) = true ∧
    (∀ s, monitor_mode cursor_pos monitors = .ok (some s) →
      ∃ m ∈ monitors, 0 < m.width ∧ 0 < m.height
        ∧ s = formatGeometry m.x m.y m.width m.height) := by
  refine ⟨?_, natDecimal_isNumeral _, natDecimal_isNumeral _, natDecimal_val _,
    natDecimal_val _, intDisplay_isInteger x, intDisplay_isInteger y, ?_⟩
  · unfold formatGeometry
    rw [intDisplay_nonneg hw, intDisplay_nonneg hh]
  · intro s hs
    unfold monitor_mode at hs
    cases hf : monitors.find? (fun monitor =>
        decide (monitor.x ≤ cursor_pos.x) &&
        decide (cursor_pos.x < monitor.x + monitor.width) &&
        decide (monitor.y ≤ cursor_pos.y) &&
        decide (cursor_pos.y < monitor.y + monitor.height)) with
    | none =>
      rw [hf] at hs
      exact absurd hs (by simp)
    | some m =>
      rw [hf] at hs
      have hmem := List.mem_of_find?_eq_some hf
      have hp := List.find?_some hf
      simp only [Bool.and_eq_true, decide_eq_true_eq] at hp
      obtain ⟨⟨⟨h1, h2⟩, h3⟩, h4⟩ := hp
      refine ⟨m, hmem, by omega, by omega, ?_⟩
      exact (Option.some.inj (Except.ok.inj hs)).symm

theorem claim_C7_amended_witness :
    (0 : Int) ≤ 0 ∧ (0 : Int) ≤ 12 ∧
    formatGeometry (-3) 4 0 12 = "-3,4 0x12" ∧
    isDecimalInteger (intDisplay (-3)) = true ∧
    (∃ m ∈ [(⟨0, 0, 10, 10⟩ : HyprlandMonitor)], 0 < m.width ∧ 0 < m.height
      ∧ "0,0 10x10" = formatGeometry m.x m.y m.width m.height) := by
  have h := claim_C7_amended (-3) 4 0 12 (by decide) (by decide) ⟨5, 5⟩
    [(⟨0, 0, 10, 10⟩ : HyprlandMonitor)]
  refine ⟨by decide, by decide, by rfl, h.2.2.2.2.2.1, ?_⟩
  exact h.2.2.2.2.2.2.2 "0,0 10x10" rfl

/-- C8: when the race is won by the selector subprocess and it exited with a
non-success status (the user pressed escape), the race outcome is the normal
`cancelled` outcome rather than an error, and the `window_mode` iteration
that ran this race terminates the loop with "no selection"
(`Ok(None)`) without failing. -/
theorem claim_C8_escape_is_cancelled (slurp_pid : Nat) (env : SelectorRaceEnv)
    (hwin : env.winner = .selector) (hwait : env.slurpWaitOk = true)
    (hexit : env.slurpExitSuccess = false) :
    (selectorRace slurp_pid env).2 = .cancelled ∧
    (∀ ienv : IterEnv, ienv.race = env → ienv.slurp_pid = slurp_pid →
      ienv.spawnOk = true → ienv.stdinWriteOk = true → ienv.pidOk = true →
      ∀ (wid : Int) (cls : List HyprlandClient),
        get_active_workspace_id ienv.activeWsCmd = .ok wid →
        parse_clients ienv.clientsCmd = .ok cls →
        get_windows_on_workspace wid cls ≠ [] →
        (windowModeIter ienv).2 = .finished none) := by
  have hrace : (selectorRace slurp_pid env).2 = .cancelled := by
    rw [selectorRace_selector slurp_pid env hwin]
    dsimp only
    rw [hwait, hexit]
    rfl
  refine ⟨hrace, ?_⟩
  intro ienv hre hrp hs hw hp wid cls ha hc hne
  rw [windowModeIter_race ienv wid cls ha hc hne hs hw hp]
  dsimp only
  rw [hre, hrp, hrace]

theorem claim_C8_witness :
    (windowModeIter ⟨CmdResult.ran true (some ⟨3, "3"⟩),
        CmdResult.ran true (some [⟨"a", (0, 0), (4, 4), ⟨3, "3"⟩, false⟩]),
        [], true, true, true, 7,
        ⟨.selector, true, false, true, "", true, .invokeFail⟩⟩).2 = .finished none := by
  exact (claim_C8_escape_is_cancelled 7
      ⟨.selector, true, false, true, "", true, .invokeFail⟩ rfl rfl rfl).2
    ⟨CmdResult.ran true (some ⟨3, "3"⟩),
      CmdResult.ran true (some [⟨"a", (0, 0), (4, 4), ⟨3, "3"⟩, false⟩]),
      [], true, true, true, 7,
      ⟨.selector, true, false, true, "", true, .invokeFail⟩⟩
    rfl rfl rfl rfl rfl 3 [⟨"a", (0, 0), (4, 4), ⟨3, "3"⟩, false⟩] rfl rfl (by decide)

/-- C9: the polling watcher can only ever complete with a success value, so
the error-propagation operator applied to it at the empty-workspace call site
of `window_mode` can never propagate a watcher failure: an iteration whose
snapshot succeeds with an empty window list either keeps polling or restarts
the loop, and never fails. -/
theorem claim_C9_watcher_never_errors (initial_id : Int)
    (trace : List (CmdResult HyprlandWorkspace)) (env : IterEnv) (wid : Int)
    (cls : List HyprlandClient) :
    (∀ r, monitor_workspace_changes_by_polling initial_id trace = some r → r = .ok ()) ∧
    (∀ e, monitor_workspace_changes_by_polling initial_id trace ≠ some (.error e)) ∧
    (get_active_workspace_id env.activeWsCmd = .ok wid →
      parse_clients env.clientsCmd = .ok cls →
      get_windows_on_workspace wid cls = [] →
      (windowModeIter env).2 = .blockedPolling ∨ (windowModeIter env).2 = .continueLoop) := by
  refine ⟨fun r => mwcbp_some_ok initial_id trace r, ?_, ?_⟩
  · intro e hcontra
    exact absurd (mwcbp_some_ok initial_id trace _ hcontra) (by simp)
  · intro ha hc he
    rw [windowModeIter_empty env wid cls ha hc he]
    cases hm : monitor_workspace_changes_by_polling wid env.emptyTrace with
    | none => exact Or.inl rfl
    | some r =>
      have hr := mwcbp_some_ok wid env.emptyTrace r hm
      subst hr
      exact Or.inr rfl

theorem claim_C9_witness :
    (windowModeIter ⟨CmdResult.ran true (some ⟨3, "3"⟩), CmdResult.ran true (some []),
        [], true, true, true, 7,
        ⟨.selector, true, true, true, "", true, .invokeFail⟩⟩).2 = .blockedPolling ∨
    (windowModeIter ⟨CmdResult.ran true (some ⟨3, "3"⟩), CmdResult.ran true (some []),
        [], true, true, true, 7,
        ⟨.selector, true, true, true, "", true, .invokeFail⟩⟩).2 = .continueLoop := by
  exact (claim_C9_watcher_never_errors 3 []
      ⟨CmdResult.ran true (some ⟨3, "3"⟩), CmdResult.ran true (some []),
        [], true, true, true, 7,
        ⟨.selector, true, true, true, "", true, .invokeFail⟩⟩ 3 []).2.2 rfl rfl rfl

/-- C10: `monitor_mode` returns the geometry of the first monitor, in query
order, whose half-open rectangle (lower bounds inclusive, upper bounds
strict) contains the cursor; it never reports a cancellation, and when no
monitor contains the cursor it fails with an error. -/
theorem claim_C10_monitor_under_cursor (cursor_pos : HyprlandCursorPos)
    (monitors : List HyprlandMonitor) :
    ((∀ m ∈ monitors, ¬ containsCursor m cursor_pos) →
      monitor_mode cursor_pos monitors = .error .noMonitorUnderCursor) ∧
    monitor_mode cursor_pos monitors ≠ .ok none ∧
    (∀ (i : Nat) (hi : i < monitors.length),
      containsCursor (monitors.get ⟨i, hi⟩) cursor_pos →
      (∀ (j : Nat) (hj : j < monitors.length), j < i →
        ¬ containsCursor (monitors.get ⟨j, hj⟩) cursor_pos) →
      monitor_mode cursor_pos monitors =
        .ok (some (formatGeometry (monitors.get ⟨i, hi⟩).x (monitors.get ⟨i, hi⟩).y
          (monitors.get ⟨i, hi⟩).width (monitors.get ⟨i, hi⟩).height))) := by
  have hbool : ∀ m : HyprlandMonitor,
      ((decide (m.x ≤ cursor_pos.x) && decide (cursor_pos.x < m.x + m.width) &&
        decide (m.y ≤ cursor_pos.y) && decide (cursor_pos.y < m.y + m.height)) = true)
        ↔ containsCursor m cursor_pos := by
    intro m
    simp only [Bool.and_eq_true, decide_eq_true_eq, containsCursor]
    tauto
  refine ⟨?_, ?_, ?_⟩
  · intro hno
    unfold monitor_mode
    rw [List.find?_eq_none.mpr (fun m hm => by
      rw [hbool m]
      exact hno m hm)]
  · unfold monitor_mode
    cases hf : monitors.find? (fun monitor =>
        decide (monitor.x ≤ cursor_pos.x) &&
        decide (cursor_pos.x < monitor.x + monitor.width) &&
        decide (monitor.y ≤ cursor_pos.y) &&
        decide (cursor_pos.y < monitor.y + monitor.height)) with
    | none => simp
    | some m => simp
  · intro i hi hcont hmin
    unfold monitor_mode
    rw [find_from_index _ monitors i hi ((hbool _).mpr hcont)
      (fun j hj hji => by
        rw [← Bool.not_eq_true, hbool _]
        exact hmin j hj hji)]

theorem claim_C10_witness :
    monitor_mode ⟨13, 4⟩ [⟨0, 0, 10, 10⟩, ⟨10, 0, 10, 10⟩] = .ok (some "10,0 10x10") := by
  have h := (claim_C10_monitor_under_cursor ⟨13, 4⟩
      [⟨0, 0, 10, 10⟩, ⟨10, 0, 10, 10⟩]).2.2 1 (by decide) (by decide)
    (fun j hj hj1 => by
      have hj0 : j = 0 := by omega
      subst hj0
      show ¬ containsCursor ⟨0, 0, 10, 10⟩ ⟨13, 4⟩
      decide)
  rw [h]
  rfl

end LuminaShot
